import Mathlib

/-!
Shallow embedding of the registration/capacity core of the_steel_fist
(src/model.py, src/utils.py, src/pages/course_registration.py).

Entity rows mirror the SQLModel tables in src/model.py.  The
`Registrations` table stores `member_id` and `course_id` as strings
(src/model.py lines 41-42), and the code compares them against
`str(python_int)`; we keep them as `String` and use Lean's `toString`
on `Nat`, which renders the same decimal digits.  Datetimes are
abstracted as `Nat` timestamps: the code only copies and compares them.

Operations are embedded as pure functions from an explicit `GymState`
(the database contents) to a result together with the successor state.
A SQLAlchemy `select(...).first()` over a table in natural storage
order is `List.find?`; `.all()` with a `where` is `List.filter`;
`.one_or_none()` distinguishes zero, one, and many matches.
-/

structure Member where
  member_id : Nat
  member_name : String
  email : String
  access_card_id : Option Nat
  deriving Repr, DecidableEq

structure Coach where
  coach_id : Nat
  coach_name : String
  specialty : String
  deriving Repr, DecidableEq

structure Course where
  course_id : Nat
  course_name : String
  time_plan : Nat
  max_capacity : Nat
  coach_id : Option Nat
  deriving Repr, DecidableEq

structure Registration where
  registration_id : Nat
  registration_date : Nat
  member_id : String
  course_id : String
  deriving Repr, DecidableEq

/-- The database contents.  `nextRegId` models the autoincrementing
surrogate primary key for `Registrations`. -/
structure GymState where
  members : List Member
  coaches : List Coach
  courses : List Course
  registrations : List Registration
  nextRegId : Nat
  deriving Repr, DecidableEq

/-- `session.exec(select(Members).where(Members.member_id == id)).first()` -/
def findMember (s : GymState) (id_member : Nat) : Option Member :=
  s.members.find? (fun m => m.member_id == id_member)

/-- `session.exec(select(Courses).where(Courses.course_id == id)).first()` -/
def findCourse (s : GymState) (id_course : Nat) : Option Course :=
  s.courses.find? (fun c => c.course_id == id_course)

/-- `select(Registrations).where(Registrations.course_id == course_id_str)`,
the rows counted by the capacity check (src/utils.py lines 324-326). -/
def courseRegs (s : GymState) (id_course : Nat) : List Registration :=
  s.registrations.filter (fun r => r.course_id == toString id_course)

/-- The outcome kinds of `registrations` in src/utils.py, one per
returned message. -/
inductive RegisterResult where
  | memberNotFound
  | courseNotFound
  | courseFull
  | duplicateRegistration
  | success
  deriving Repr, DecidableEq

/-- `registrations(id_member, id_course)` from src/utils.py lines
294-356: member-existence, course-existence, capacity, and duplicate
checks in that order, then insert.  The capacity check compares the
row count against the literal `10` (line 328), not against
`course.max_capacity`.  The inserted row's `registration_date` is the
course's `time_plan` (line 344).  Identifier inputs are taken as `Nat`,
so the `int(...)` conversions (which only affect the `InvalidInput`
path) cannot fail. -/
def register (s : GymState) (id_member id_course : Nat) :
    RegisterResult × GymState :=
  match findMember s id_member with
  | none => (.memberNotFound, s)
  | some _ =>
    match findCourse s id_course with
    | none => (.courseNotFound, s)
    | some course =>
      if (courseRegs s id_course).length ≥ 10 then
        (.courseFull, s)
      else
        match s.registrations.find? (fun r =>
            r.member_id == toString id_member &&
            r.course_id == toString id_course) with
        | some _ => (.duplicateRegistration, s)
        | none =>
          let newReg : Registration :=
            { registration_id := s.nextRegId
              registration_date := course.time_plan
              member_id := toString id_member
              course_id := toString id_course }
          (.success,
            { s with
              registrations := s.registrations ++ [newReg]
              nextRegId := s.nextRegId + 1 })

/-- The coach lookup inside `get_available_courses`
(src/pages/course_registration.py lines 27-29):
`select(Coaches).where(Coaches.coach_id == course.coach_id)).first()`.
A SQL `NULL` coach_id matches no row. -/
def resolveCoach (s : GymState) (course : Course) : Option Coach :=
  match course.coach_id with
  | none => none
  | some cid => s.coaches.find? (fun co => co.coach_id == cid)

/-- One row of the DataFrame built by `get_available_courses`
(src/pages/course_registration.py lines 38-47). -/
structure CourseListing where
  course_id : Nat
  course_name : String
  time_plan : Nat
  max_capacity : Nat
  coach_name : String
  coach_specialty : String
  current_participants : Nat
  availability : String
  deriving Repr, DecidableEq

/-- `get_available_courses()` from src/pages/course_registration.py
lines 18-49: scans all courses, resolves each course's coach, counts
its registrations, and appends a row only `if coach:` — a course whose
coach does not resolve contributes nothing. -/
def get_available_courses (s : GymState) : List CourseListing :=
  s.courses.filterMap (fun course =>
    match resolveCoach s course with
    | none => none
    | some coach =>
      let reg_count := (courseRegs s course.course_id).length
      some
        { course_id := course.course_id
          course_name := course.course_name
          time_plan := course.time_plan
          max_capacity := course.max_capacity
          coach_name := coach.coach_name
          coach_specialty := coach.specialty
          current_participants := reg_count
          availability :=
            if reg_count < course.max_capacity then "Available" else "Full" })

/-- `historic_registrations(name)` from src/utils.py lines 388-412:
resolves the name to the first member whose `member_name` matches
(`select(Members.member_id).where(...)` then `.first()`), returns `[]`
when there is none, else all Registrations whose `member_id` equals
`str(member_id)`. -/
def historic_registrations (s : GymState) (name : String) :
    List Registration :=
  match s.members.find? (fun m => m.member_name == name) with
  | none => []
  | some mem =>
    s.registrations.filter (fun r => r.member_id == toString mem.member_id)

/-- The outcome kinds of `update_members` in src/utils.py, one per
returned message. -/
inductive UpdateResult where
  | noFieldsToUpdate
  | memberNotFound
  | updated
  deriving Repr, DecidableEq

/-- The per-field guard of `update_members` (src/utils.py lines
267-270): a field enters the `updates` dict only when it is not `None`
and its `.strip()` is truthy (non-empty once whitespace is removed);
the stored value is the original, unstripped string. -/
def fieldUpdate (x : Option String) : Option String :=
  match x with
  | none => none
  | some v => if v.trim == "" then none else some v

/-- `update_members(member_id, new_name, new_mail)` from src/utils.py
lines 250-291.  An empty `updates` dict returns "No fields to update."
before the member lookup; otherwise a missing member is reported, else
the UPDATE sets exactly the collected fields on the rows matching
`member_id`. -/
def update_members (s : GymState) (member_id : Nat)
    (new_name new_mail : Option String) : UpdateResult × GymState :=
  let nameUpdate : Option String := fieldUpdate new_name
  let mailUpdate : Option String := fieldUpdate new_mail
  if nameUpdate.isNone && mailUpdate.isNone then
    (.noFieldsToUpdate, s)
  else
    match findMember s member_id with
    | none => (.memberNotFound, s)
    | some _ =>
      (.updated,
        { s with
          members := s.members.map (fun m =>
            if m.member_id == member_id then
              { m with
                member_name := nameUpdate.getD m.member_name
                email := mailUpdate.getD m.email }
            else m) })

/-- The outcome kinds of `delete_member` in src/utils.py, one per
returned message; `multipleFound` is the `MultipleResultsFound`
exception that `.one_or_none()` raises on two or more matching rows,
caught by the `except SQLAlchemyError` handler. -/
inductive DeleteResult where
  | notFound
  | multipleFound
  | deleted
  deriving Repr, DecidableEq

/-- `delete_member(name)` from src/utils.py lines 198-221:
`select(Members).where(Members.member_name == name)` then
`.one_or_none()` — zero matches report "No member found", exactly one
match is deleted (`cascade_delete=True` on `Members.registration` in
src/model.py line 19 removes the member's Registrations), and two or
more matches raise `MultipleResultsFound`, which the handler turns
into an error message with no deletion. -/
def delete_member (s : GymState) (name : String) : DeleteResult × GymState :=
  match s.members.filter (fun m => m.member_name == name) with
  | [] => (.notFound, s)
  | [m] =>
    (.deleted,
      { s with
        members := s.members.filter (fun x => !(x.member_id == m.member_id))
        registrations := s.registrations.filter (fun r =>
          !(r.member_id == toString m.member_id)) })
  | _ => (.multipleFound, s)

/-! ### Concrete fixtures -/

/-- A coach for the concrete scenarios. -/
def coachA : Coach := { coach_id := 1, coach_name := "Alice", specialty := "Yoga" }

/-- A course with `max_capacity = 1` (spec §8, concrete scenario 1). -/
def course3 : Course :=
  { course_id := 3, course_name := "Boxing", time_plan := 100
    max_capacity := 1, coach_id := some 1 }

/-- Member with id 7. -/
def member7 : Member :=
  { member_id := 7, member_name := "Gina", email := "g@x.io", access_card_id := none }

/-- Member with id 9. -/
def member9 : Member :=
  { member_id := 9, member_name := "Hugo", email := "h@x.io", access_card_id := none }

/-- Store holding members 7 and 9, coach 1, course 3 (capacity 1) and
no registrations. -/
def baseState : GymState :=
  { members := [member7, member9], coaches := [coachA]
    courses := [course3], registrations := [], nextRegId := 1 }

/-- C1: capacity is NOT enforced against `max_capacity`: with course 3
at `max_capacity = 1`, registering member 7 and then member 9 both
succeed, leaving 2 registrations on a capacity-1 course, and the
second call does not fail with CourseFull.  The code compares the
count against the literal 10 (src/utils.py line 328). -/
theorem C1_capacity_not_enforced :
    (register baseState 7 3).1 = .success ∧
    (register (register baseState 7 3).2 9 3).1 = .success ∧
    (courseRegs (register (register baseState 7 3).2 9 3).2 3).length = 2 ∧
    course3.max_capacity = 1 ∧ course3 ∈ baseState.courses := by
  decide

/-- The duplicate-registration lookup inside `registrations`
(src/utils.py lines 332-337). -/
def findDup (s : GymState) (id_member id_course : Nat) : Option Registration :=
  s.registrations.find? (fun r =>
    r.member_id == toString id_member && r.course_id == toString id_course)

/-- `register` unfolded through `findDup`, for reuse in proofs. -/
theorem register_eq (s : GymState) (m c : Nat) :
    register s m c =
      match findMember s m with
      | none => (.memberNotFound, s)
      | some _ =>
        match findCourse s c with
        | none => (.courseNotFound, s)
        | some course =>
          if (courseRegs s c).length ≥ 10 then (.courseFull, s)
          else
            match findDup s m c with
            | some _ => (.duplicateRegistration, s)
            | none =>
              (.success,
                { s with
                  registrations := s.registrations ++
                    [{ registration_id := s.nextRegId
                       registration_date := course.time_plan
                       member_id := toString m
                       course_id := toString c }]
                  nextRegId := s.nextRegId + 1 }) := by
  rfl

/-- C4: the four preconditions of `register` are checked in order
member-existence, course-existence, capacity, duplicate, and the first
failing check determines the error: a missing member yields
MemberNotFound even when the course is also missing; a missing course
(with the member present) yields CourseNotFound; a full course yields
CourseFull even when the duplicate check would also fail; a duplicate
on a non-full course yields DuplicateRegistration. -/
theorem C4_precondition_order (s : GymState) (m c : Nat) :
    (findMember s m = none → (register s m c).1 = .memberNotFound) ∧
    (findMember s m = none → findCourse s c = none →
      (register s m c).1 = .memberNotFound ∧
      (register s m c).1 ≠ .courseNotFound) ∧
    (findMember s m ≠ none → findCourse s c = none →
      (register s m c).1 = .courseNotFound) ∧
    (findMember s m ≠ none → findCourse s c ≠ none →
      10 ≤ (courseRegs s c).length →
      (register s m c).1 = .courseFull) ∧
    (findMember s m ≠ none → findCourse s c ≠ none →
      (courseRegs s c).length < 10 → (findDup s m c).isSome →
      (register s m c).1 = .duplicateRegistration) := by
  rw [register_eq]
  refine ⟨?_, ?_, ?_, ?_, ?_⟩
  · intro hm; simp [hm]
  · intro hm _; simp [hm]
  · intro hm hc
    obtain ⟨mem, hmem⟩ := Option.ne_none_iff_exists'.mp hm
    simp [hmem, hc]
  · intro hm hc hfull
    obtain ⟨mem, hmem⟩ := Option.ne_none_iff_exists'.mp hm
    obtain ⟨course, hcourse⟩ := Option.ne_none_iff_exists'.mp hc
    simp [hmem, hcourse, hfull]
  · intro hm hc hcap hdup
    obtain ⟨mem, hmem⟩ := Option.ne_none_iff_exists'.mp hm
    obtain ⟨course, hcourse⟩ := Option.ne_none_iff_exists'.mp hc
    obtain ⟨r, hr⟩ := Option.isSome_iff_exists.mp hdup
    simp [hmem, hcourse, hr, Nat.not_le.mpr hcap]

/-- Witness for C4 at a concrete store: a store where member 999 and
course 888 are absent, plus the full-and-duplicate priority at a store
with 10 registrations on course 3 all including member 7. -/
theorem C4_precondition_order_witness :
    (register baseState 999 888).1 = .memberNotFound ∧
    (register baseState 999 888).1 ≠ .courseNotFound := by
  exact (C4_precondition_order baseState 999 888).2.1 (by decide) (by decide)

/-- C5: calling `register` with a member id matching no member fails
with MemberNotFound and leaves the whole store untouched; with the
member present but the course id matching no course it fails with
CourseNotFound and likewise leaves the store untouched. -/
theorem C5_notfound_no_mutation (s : GymState) (m c : Nat) :
    (findMember s m = none → register s m c = (.memberNotFound, s)) ∧
    (findMember s m ≠ none → findCourse s c = none →
      register s m c = (.courseNotFound, s)) := by
  rw [register_eq]
  constructor
  · intro hm; simp [hm]
  · intro hm hc
    obtain ⟨mem, hmem⟩ := Option.ne_none_iff_exists'.mp hm
    simp [hmem, hc]

/-- Witness for C5: unknown member 999 (spec §8, concrete scenario 4)
and unknown course 888 against the concrete store. -/
theorem C5_notfound_no_mutation_witness :
    register baseState 999 3 = (.memberNotFound, baseState) ∧
    register baseState 7 888 = (.courseNotFound, baseState) := by
  exact ⟨(C5_notfound_no_mutation baseState 999 3).1 (by decide),
    (C5_notfound_no_mutation baseState 7 888).2 (by decide) (by decide)⟩

/-- A course with `max_capacity = 12`, within the 10-30 range the
seeding script uses (src/populate_db.py line 169). -/
def course6 : Course :=
  { course_id := 6, course_name := "HIIT", time_plan := 300
    max_capacity := 12, coach_id := some 1 }

/-- Store with eleven members (ids 1..11), coach 1 and course 6. -/
def c6Base : GymState :=
  { members := (List.range 11).map (fun i =>
      { member_id := i + 1, member_name := "N", email := "n@x.io"
        access_card_id := none })
    coaches := [coachA], courses := [course6]
    registrations := [], nextRegId := 1 }

/-- The store after members 1..n registered for course 6 in turn. -/
def c6After (n : Nat) : GymState :=
  (List.range n).foldl (fun s j => (register s (j + 1) 6).2) c6Base

/-- C6: the success path does append exactly one row dated to the
course's `time_plan` (first two conjuncts: member 1 on the empty
course), but the claim's precondition is spare capacity against
`max_capacity`, and the code gates on the literal 10 instead
(src/utils.py line 328): after members 1..10 register successfully,
course 6 still has spare capacity (10 < 12), member 11 exists and
holds no registration for it, yet `register 11 6` fails with
CourseFull and creates nothing. -/
theorem C6_spare_capacity_rejected :
    (register c6Base 1 6).1 = .success ∧
    (register c6Base 1 6).2.registrations =
      [{ registration_id := 1, registration_date := course6.time_plan
         member_id := "1", course_id := "6" }] ∧
    ((List.range 10).all (fun i =>
      (register (c6After i) (i + 1) 6).1 == .success)) = true ∧
    findMember (c6After 10) 11 ≠ none ∧
    findCourse (c6After 10) 6 = some course6 ∧
    (courseRegs (c6After 10) 6).length < course6.max_capacity ∧
    findDup (c6After 10) 11 6 = none ∧
    (register (c6After 10) 11 6).1 = .courseFull ∧
    (register (c6After 10) 11 6).2 = c6After 10 := by
  decide

/-- A course whose `coach_id` is NULL (src/model.py line 70 allows it). -/
def orphanCourse : Course :=
  { course_id := 5, course_name := "Pilates", time_plan := 50
    max_capacity := 5, coach_id := none }

/-- Store containing `orphanCourse` with no registrations. -/
def orphanState : GymState :=
  { members := [], coaches := [coachA], courses := [orphanCourse]
    registrations := [], nextRegId := 1 }

/-- C2 counterexample: course 5 is in the store with 0 registrations
and capacity 5 (so the claim requires the listing to report it as
"Available"), yet `get_available_courses` returns no entry at all —
its coach_id is NULL, so the claim as stated over every course in the
store is false. -/
theorem C2_counterexample :
    orphanCourse ∈ orphanState.courses ∧
    (courseRegs orphanState orphanCourse.course_id).length <
      orphanCourse.max_capacity ∧
    get_available_courses orphanState = [] := by
  decide

/-- C2 (amended): for every course whose coach resolves to an existing
coach, every `get_available_courses` call reports one entry for it
whose participant count is the current registration count and whose
availability is "Full" iff that count is at least `max_capacity`, and
"Available" otherwise; recomputed from the store on every call. -/
theorem C2_availability_consistency (s : GymState) (course : Course)
    (coach : Coach) (hcourse : course ∈ s.courses)
    (hcoach : resolveCoach s course = some coach) :
    ∃ e ∈ get_available_courses s,
      e.course_id = course.course_id ∧
      e.max_capacity = course.max_capacity ∧
      e.current_participants = (courseRegs s course.course_id).length ∧
      (e.availability = "Full" ↔
        course.max_capacity ≤ (courseRegs s course.course_id).length) ∧
      (e.availability = "Available" ↔
        (courseRegs s course.course_id).length < course.max_capacity) := by
  by_cases hlt :
      (courseRegs s course.course_id).length < course.max_capacity
  · refine ⟨{ course_id := course.course_id
              course_name := course.course_name
              time_plan := course.time_plan
              max_capacity := course.max_capacity
              coach_name := coach.coach_name
              coach_specialty := coach.specialty
              current_participants := (courseRegs s course.course_id).length
              availability := "Available" }, ?_, rfl, rfl, rfl, ?_, ?_⟩
    · simp only [get_available_courses, List.mem_filterMap]
      exact ⟨course, hcourse, by simp [hcoach, hlt]⟩
    · exact iff_of_false (by simp) (Nat.not_le.mpr hlt)
    · exact iff_of_true rfl hlt
  · refine ⟨{ course_id := course.course_id
              course_name := course.course_name
              time_plan := course.time_plan
              max_capacity := course.max_capacity
              coach_name := coach.coach_name
              coach_specialty := coach.specialty
              current_participants := (courseRegs s course.course_id).length
              availability := "Full" }, ?_, rfl, rfl, rfl, ?_, ?_⟩
    · simp only [get_available_courses, List.mem_filterMap]
      exact ⟨course, hcourse, by simp [hcoach, hlt]⟩
    · exact iff_of_true rfl (Nat.le_of_not_lt hlt)
    · exact iff_of_false (by simp) hlt

/-- Witness for C2 (amended): in the concrete store, course 3
(capacity 1, coach 1, no registrations) is listed. -/
theorem C2_availability_consistency_witness :
    ∃ e ∈ get_available_courses baseState,
      e.course_id = course3.course_id ∧
      e.max_capacity = course3.max_capacity ∧
      e.current_participants =
        (courseRegs baseState course3.course_id).length ∧
      (e.availability = "Full" ↔
        course3.max_capacity ≤
          (courseRegs baseState course3.course_id).length) ∧
      (e.availability = "Available" ↔
        (courseRegs baseState course3.course_id).length <
          course3.max_capacity) := by
  exact C2_availability_consistency baseState course3 coachA (by decide)
    (by decide)

/-- A course with `max_capacity = 10`, matching the hard-coded
capacity threshold. -/
def course4 : Course :=
  { course_id := 4, course_name := "Spin", time_plan := 200
    max_capacity := 10, coach_id := some 1 }

/-- Store with ten members (ids 1..10), coach 1 and course 4. -/
def c3Base : GymState :=
  { members := (List.range 10).map (fun i =>
      { member_id := i + 1, member_name := "M", email := "m@x.io"
        access_card_id := none })
    coaches := [coachA], courses := [course4]
    registrations := [], nextRegId := 1 }

/-- The store after members 1..n registered for course 4 in turn. -/
def c3After (n : Nat) : GymState :=
  (List.range n).foldl (fun s j => (register s (j + 1) 4).2) c3Base

/-- C3 counterexample: members 1..10 all register for course 4
successfully; the repeat call `register 1 4` is then a duplicate (a
registration for the pair exists), but it fails with CourseFull, not
DuplicateRegistration, because the capacity check (src/utils.py line
328) runs before the duplicate check (lines 331-340). -/
theorem C3_counterexample :
    ((List.range 10).all (fun i =>
      (register (c3After i) (i + 1) 4).1 == .success)) = true ∧
    ((c3After 10).registrations.filter (fun r =>
      r.member_id == toString 1 && r.course_id == toString 4)).length = 1 ∧
    (register (c3After 10) 1 4).1 = .courseFull ∧
    (register (c3After 10) 1 4).1 ≠ .duplicateRegistration := by
  decide

/-- No two Registration rows share the same (member_id, course_id)
pair. -/
def atMostOnePerPair (s : GymState) : Prop :=
  s.registrations.Pairwise (fun a b =>
    ¬(a.member_id = b.member_id ∧ a.course_id = b.course_id))

instance (s : GymState) : Decidable (atMostOnePerPair s) := by
  unfold atMostOnePerPair; infer_instance

/-- C3 (amended): `register` preserves the at-most-one-registration-
per-(member, course)-pair invariant, so a pair is never stored twice;
and when the member and course exist and a registration for the pair
is already present, the repeat call leaves the store unchanged and
fails — with DuplicateRegistration, or with CourseFull when the
course's registration count has reached the capacity threshold. -/
theorem C3_no_duplicate_rows (s : GymState) (m c : Nat) :
    (atMostOnePerPair s → atMostOnePerPair (register s m c).2) ∧
    (findMember s m ≠ none → findCourse s c ≠ none →
      (∃ r ∈ s.registrations,
        r.member_id = toString m ∧ r.course_id = toString c) →
      (register s m c).2 = s ∧
      ((register s m c).1 = .duplicateRegistration ∨
        (register s m c).1 = .courseFull)) := by
  constructor
  · intro hinv
    rw [register_eq]
    cases hm : findMember s m with
    | none => exact hinv
    | some mem =>
      cases hc : findCourse s c with
      | none => exact hinv
      | some course =>
        by_cases hcap : (courseRegs s c).length ≥ 10
        · simp only [if_pos hcap]; exact hinv
        · simp only [if_neg hcap]
          cases hdup : findDup s m c with
          | some r => exact hinv
          | none =>
            unfold atMostOnePerPair at hinv ⊢
            simp only
            rw [List.pairwise_append]
            refine ⟨hinv, List.pairwise_singleton _ _, ?_⟩
            intro a ha b hb
            simp only [List.mem_singleton] at hb
            subst hb
            have hnot := List.find?_eq_none.mp hdup a ha
            simp only [Bool.and_eq_true, beq_iff_eq, not_and] at hnot
            simpa using hnot
  · intro hm hc hdup
    obtain ⟨mem, hmem⟩ := Option.ne_none_iff_exists'.mp hm
    obtain ⟨course, hcourse⟩ := Option.ne_none_iff_exists'.mp hc
    have hsome : (findDup s m c).isSome := by
      unfold findDup
      rw [List.find?_isSome]
      obtain ⟨r, hr, hr1, hr2⟩ := hdup
      exact ⟨r, hr, by simp [hr1, hr2]⟩
    obtain ⟨r, hr⟩ := Option.isSome_iff_exists.mp hsome
    rw [register_eq]
    by_cases hcap : (courseRegs s c).length ≥ 10
    · simp [hmem, hcourse, hcap]
    · simp [hmem, hcourse, hcap, hr]

/-- Witness for C3 (amended): after member 7 registers for course 3,
the invariant still holds, and the repeat call leaves the store
unchanged, failing with one of the two error kinds. -/
theorem C3_no_duplicate_rows_witness :
    atMostOnePerPair (register (register baseState 7 3).2 7 3).2 ∧
    ((register (register baseState 7 3).2 7 3).2 =
        (register baseState 7 3).2 ∧
      ((register (register baseState 7 3).2 7 3).1 =
          .duplicateRegistration ∨
        (register (register baseState 7 3).2 7 3).1 = .courseFull)) := by
  exact ⟨(C3_no_duplicate_rows (register baseState 7 3).2 7 3).1 (by decide),
    (C3_no_duplicate_rows (register baseState 7 3).2 7 3).2 (by decide)
      (by decide) (by decide)⟩

/-- C7: `historic_registrations` returns `[]` (not an error) when no
member carries the given name; otherwise the name resolves to the
first matching member — a member of the store whose name equals the
argument — and the result holds exactly the Registrations whose
`member_id` is that member's id. -/
theorem C7_registration_history (s : GymState) (name : String) :
    ((∀ m ∈ s.members, m.member_name ≠ name) →
      historic_registrations s name = []) ∧
    (∀ mem, s.members.find? (fun m => m.member_name == name) = some mem →
      mem ∈ s.members ∧ mem.member_name = name ∧
      ∀ r, r ∈ historic_registrations s name ↔
        r ∈ s.registrations ∧ r.member_id = toString mem.member_id) := by
  constructor
  · intro hnone
    unfold historic_registrations
    have : s.members.find? (fun m => m.member_name == name) = none := by
      rw [List.find?_eq_none]
      intro m hm
      simpa using hnone m hm
    rw [this]
  · intro mem hfind
    refine ⟨List.mem_of_find?_eq_some hfind, ?_, ?_⟩
    · have := List.find?_some hfind
      simpa using this
    · intro r
      unfold historic_registrations
      rw [hfind]
      simp [List.mem_filter]

/-- Witness for C7: "Jane Doe" matches no member of the concrete
store, so the history is the empty list; "Gina" resolves to member 7
and the history is exactly member 7's registrations. -/
theorem C7_registration_history_witness :
    historic_registrations baseState "Jane Doe" = [] ∧
    (member7 ∈ baseState.members ∧ member7.member_name = "Gina" ∧
      ∀ r, r ∈ historic_registrations baseState "Gina" ↔
        r ∈ baseState.registrations ∧
        r.member_id = toString member7.member_id) := by
  exact ⟨(C7_registration_history baseState "Jane Doe").1 (by decide),
    (C7_registration_history baseState "Gina").2 member7 (by decide)⟩

/-- C8: `update_members` with no fields supplied returns the distinct
NoFieldsToUpdate result with the store untouched; in every case it
leaves coaches, courses and registrations unchanged and keeps every
member whose id differs from the target; and for a member matching the
target id there is a resulting member row with the same id and access
card where each unsupplied (or blank) field keeps its old value and
each supplied non-blank field takes the supplied value. -/
theorem C8_partial_update (s : GymState) (id : Nat) (nn nm : Option String) :
    update_members s id none none = (.noFieldsToUpdate, s) ∧
    (update_members s id nn nm).2.coaches = s.coaches ∧
    (update_members s id nn nm).2.courses = s.courses ∧
    (update_members s id nn nm).2.registrations = s.registrations ∧
    (∀ m ∈ s.members, m.member_id ≠ id →
      m ∈ (update_members s id nn nm).2.members) ∧
    (∀ m ∈ s.members, m.member_id = id →
      ∃ m' ∈ (update_members s id nn nm).2.members,
        m'.member_id = m.member_id ∧
        m'.access_card_id = m.access_card_id ∧
        (nn = none → m'.member_name = m.member_name) ∧
        (nm = none → m'.email = m.email) ∧
        (∀ v, nn = some v → v.trim = "" → m'.member_name = m.member_name) ∧
        (∀ v, nm = some v → v.trim = "" → m'.email = m.email) ∧
        (∀ v, nn = some v → v.trim ≠ "" → m'.member_name = v) ∧
        (∀ v, nm = some v → v.trim ≠ "" → m'.email = v)) := by
  refine ⟨rfl, ?_, ?_, ?_, ?_, ?_⟩
  · simp only [update_members]
    split
    · rfl
    · split
      · rfl
      · rfl
  · simp only [update_members]
    split
    · rfl
    · split
      · rfl
      · rfl
  · simp only [update_members]
    split
    · rfl
    · split
      · rfl
      · rfl
  · intro m hm hne
    simp only [update_members]
    split
    · exact hm
    · split
      · exact hm
      · simp only
        refine List.mem_map.mpr ⟨m, hm, ?_⟩
        have hb : (m.member_id == id) = false := by simpa using hne
        simp [hb]
  · intro m hm hid
    by_cases hguard : ((fieldUpdate nn).isNone && (fieldUpdate nm).isNone) = true
    · have heq : update_members s id nn nm = (.noFieldsToUpdate, s) := by
        simp only [update_members]
        rw [if_pos hguard]
      rw [heq]
      rw [Bool.and_eq_true] at hguard
      refine ⟨m, hm, rfl, rfl, fun _ => rfl, fun _ => rfl,
        fun _ _ _ => rfl, fun _ _ _ => rfl, ?_, ?_⟩
      · intro v hv hnb
        exfalso
        have h1 := hguard.1
        have hb : (v.trim == "") = false := beq_eq_false_iff_ne.mpr hnb
        rw [hv] at h1
        simp [fieldUpdate, hb] at h1
      · intro v hv hnb
        exfalso
        have h2 := hguard.2
        have hb : (v.trim == "") = false := beq_eq_false_iff_ne.mpr hnb
        rw [hv] at h2
        simp [fieldUpdate, hb] at h2
    · cases hf : findMember s id with
      | none =>
        exfalso
        unfold findMember at hf
        have := List.find?_eq_none.mp hf m hm
        simp [hid] at this
      | some mem =>
        have heq : (update_members s id nn nm).2 =
            { s with members := s.members.map (fun x =>
                if x.member_id == id then
                  { x with
                    member_name := (fieldUpdate nn).getD x.member_name
                    email := (fieldUpdate nm).getD x.email }
                else x) } := by
          simp only [update_members]
          rw [if_neg hguard, hf]
        rw [heq]
        have hb : (m.member_id == id) = true := by simpa using hid
        refine ⟨{ m with
            member_name := (fieldUpdate nn).getD m.member_name
            email := (fieldUpdate nm).getD m.email },
          List.mem_map.mpr ⟨m, hm, by simp [hb]⟩,
          rfl, rfl, ?_, ?_, ?_, ?_, ?_, ?_⟩
        · intro h; subst h; simp [fieldUpdate]
        · intro h; subst h; simp [fieldUpdate]
        · intro v hv hblank; subst hv
          have ht : (v.trim == "") = true := by simpa using hblank
          simp [fieldUpdate, ht]
        · intro v hv hblank; subst hv
          have ht : (v.trim == "") = true := by simpa using hblank
          simp [fieldUpdate, ht]
        · intro v hv hnb; subst hv
          have ht : (v.trim == "") = false := beq_eq_false_iff_ne.mpr hnb
          simp [fieldUpdate, ht]
        · intro v hv hnb; subst hv
          have ht : (v.trim == "") = false := beq_eq_false_iff_ne.mpr hnb
          simp [fieldUpdate, ht]

/-- Witness for C8 at the concrete store: renaming member 7 to
"Regina" with no email supplied keeps member 9 intact, keeps member
7's email and access card, sets the new name, and the empty update
returns NoFieldsToUpdate with the store untouched. -/
theorem C8_partial_update_witness :
    update_members baseState 7 none none = (.noFieldsToUpdate, baseState) ∧
    member9 ∈ (update_members baseState 7 (some "Regina") none).2.members ∧
    ∃ m' ∈ (update_members baseState 7 (some "Regina") none).2.members,
      m'.member_id = member7.member_id ∧
      m'.access_card_id = member7.access_card_id ∧
      ((some "Regina" : Option String) = none →
        m'.member_name = member7.member_name) ∧
      ((none : Option String) = none → m'.email = member7.email) ∧
      (∀ v, (some "Regina" : Option String) = some v → v.trim = "" →
        m'.member_name = member7.member_name) ∧
      (∀ v, (none : Option String) = some v → v.trim = "" →
        m'.email = member7.email) ∧
      (∀ v, (some "Regina" : Option String) = some v → v.trim ≠ "" →
        m'.member_name = v) ∧
      (∀ v, (none : Option String) = some v → v.trim ≠ "" →
        m'.email = v) := by
  have h := C8_partial_update baseState 7 (some "Regina") none
  exact ⟨h.1, h.2.2.2.2.1 member9 (by decide) (by decide),
    h.2.2.2.2.2 member7 (by decide) (by decide)⟩

/-- C9: a course whose `coach_id` does not resolve to an existing
coach (for instance a NULL coach_id) contributes no row to any
`get_available_courses` result, so its availability is never
reported.  Course ids are assumed pairwise distinct, as the primary
key guarantees. -/
theorem C9_orphan_course_omitted (s : GymState) (course : Course)
    (hcourse : course ∈ s.courses)
    (hnone : resolveCoach s course = none)
    (hnodup : (s.courses.map Course.course_id).Nodup) :
    ∀ e ∈ get_available_courses s, e.course_id ≠ course.course_id := by
  intro e he heq
  unfold get_available_courses at he
  obtain ⟨c, hc, hfc⟩ := List.mem_filterMap.mp he
  cases hrc : resolveCoach s c with
  | none => simp [hrc] at hfc
  | some coach =>
    simp only [hrc] at hfc
    rw [Option.some_inj] at hfc
    have hid : c.course_id = course.course_id := by
      rw [← heq, ← hfc]
    have hceq : c = course :=
      List.inj_on_of_nodup_map hnodup hc hcourse hid
    rw [hceq, hnone] at hrc
    exact Option.noConfusion hrc

/-- Witness for C9: in the store holding only the NULL-coach course 5,
no listing entry carries course id 5. -/
theorem C9_orphan_course_omitted_witness :
    ((get_available_courses orphanState).all (fun e =>
      e.course_id != orphanCourse.course_id)) = true := by
  rw [List.all_eq_true]
  intro e he
  simpa using C9_orphan_course_omitted orphanState orphanCourse (by decide)
    (by decide) (by decide) e he

/-- C10: when two or more members share the given name,
`delete_member` returns the caught-at-the-boundary failure (the
`MultipleResultsFound` raised by `.one_or_none()`) and the store is
exactly as before: no member and no Registration is deleted. -/
theorem C10_ambiguous_delete_no_mutation (s : GymState) (name : String)
    (hmulti :
      2 ≤ (s.members.filter (fun m => m.member_name == name)).length) :
    delete_member s name = (.multipleFound, s) := by
  unfold delete_member
  cases hfl : s.members.filter (fun m => m.member_name == name) with
  | nil => rw [hfl] at hmulti; simp at hmulti
  | cons a t =>
    cases t with
    | nil => rw [hfl] at hmulti; simp at hmulti
    | cons b t2 => rfl

/-- Two members both named "Gina". -/
def member11 : Member :=
  { member_id := 11, member_name := "Gina", email := "g2@x.io"
    access_card_id := none }

/-- Store with two members sharing the name "Gina". -/
def twinState : GymState :=
  { members := [member7, member11], coaches := [coachA]
    courses := [course3]
    registrations := [{ registration_id := 1, registration_date := 100
                        member_id := "7", course_id := "3" }]
    nextRegId := 2 }

/-- Witness for C10: deleting "Gina" from the two-Gina store fails
with the multiple-results error and deletes nothing. -/
theorem C10_ambiguous_delete_no_mutation_witness :
    delete_member twinState "Gina" = (.multipleFound, twinState) := by
  exact C10_ambiguous_delete_no_mutation twinState "Gina" (by decide)
